import Mathlib

/-!
Verification of the gopad repository's core behavior against its
natural-language specification.

The development shallowly embeds three parts of the source:

* `GoPad.OT` — the `ot` package (`Operation`, `Document.Apply`, `Transform`).
* `GoPad.Storage` — the `storage` package (`DocumentState`, `SaveDocument`,
  `LoadDocument`) over a model of the Redis hash that these functions touch.
* `GoPad.Server` — the WebSocket server in `cmd/server/main.go` (the variant
  with peer-state recovery): client objects, the per-document state, and the
  handlers for connection setup, `setName`, `update`, `fullState`, socket
  close, and the delayed presence cleanup, modelled as pure state transitions
  that also return the trace of messages written to client sockets.

Go strings are modelled as Lean `String`s (all inputs of interest are ASCII,
so Go's byte indexing coincides with character indexing); Go `int`/`int64`
are modelled as `Int`; Go maps are modelled as association lists.
-/

namespace GoPad.OT

/-- Embeds `ot.Operation`: `Type` ("insert" or "delete"), `Position`,
`Text` (insert payload), `Length` (delete length). -/
structure Operation where
  type_ : String
  position : Int
  text : String
  length : Int
deriving DecidableEq

/-- Embeds `ot.Document`: the content string plus the applied-operations
history. -/
structure OTDocument where
  content : String
  operations : List Operation
deriving DecidableEq

/-- Outcomes of `Document.Apply` that are not a successful splice.
`invalidInsert` and `invalidDelete` are the two `errors.New` returns,
`unknownType` the default case.  `slicePanic` marks inputs on which the Go
code passes its validation but then evaluates a string slice with an
out-of-range index, which panics at runtime (possible only for negative
`Length` values that push `Position+Length` below 0 or leave `Position`
beyond the content length). -/
inductive ApplyErr where
  | invalidInsert
  | invalidDelete
  | unknownType
  | slicePanic
deriving DecidableEq

/-- Go `len` on a (byte) string, as an `Int` for comparison with positions. -/
def strLen (s : String) : Int := Int.ofNat s.length

/-- `content[:p] + text + content[p:]` with character indexing. -/
def spliceInsert (s : String) (p : Nat) (t : String) : String :=
  String.mk (s.toList.take p ++ t.toList ++ s.toList.drop p)

/-- `content[:p] + content[q:]` with character indexing. -/
def spliceDelete (s : String) (p q : Nat) : String :=
  String.mk (s.toList.take p ++ s.toList.drop q)

/-- Embeds `Document.Apply`.  Returns the document after the call paired with
the error result (`none` = `nil`).  On an error return the Go code has not
touched the document, so the input document is returned unchanged. -/
def applyOp (d : OTDocument) (op : Operation) : OTDocument × Option ApplyErr :=
  if op.type_ = "insert" then
    if op.position < 0 ∨ op.position > strLen d.content then
      (d, some .invalidInsert)
    else
      ({ content := spliceInsert d.content op.position.toNat op.text,
         operations := d.operations ++ [op] }, none)
  else if op.type_ = "delete" then
    if op.position < 0 ∨ op.position + op.length > strLen d.content then
      (d, some .invalidDelete)
    else if strLen d.content < op.position ∨ op.position + op.length < 0 then
      (d, some .slicePanic)
    else
      ({ content := spliceDelete d.content op.position.toNat (op.position + op.length).toNat,
         operations := d.operations ++ [op] }, none)
  else
    (d, some .unknownType)

/-- Applies a list of operations in order, stopping at the first error. -/
def seqApply (d : OTDocument) (ops : List Operation) : OTDocument × Option ApplyErr :=
  match ops with
  | [] => (d, none)
  | op :: rest =>
    match applyOp d op with
    | (d', none) => seqApply d' rest
    | (d', some e) => (d', some e)

/-- The body of `ot.Transform` after its position-ordering swap: the Go
`switch` over the two operation types.  Only the second operation is ever
modified; type combinations outside the four cases fall through unchanged. -/
def transformOrdered (op1 op2 : Operation) : Operation × Operation :=
  if op1.type_ = "insert" ∧ op2.type_ = "insert" then
    if op1.position ≤ op2.position then
      (op1, { op2 with position := op2.position + strLen op1.text })
    else (op1, op2)
  else if op1.type_ = "insert" ∧ op2.type_ = "delete" then
    if op1.position ≤ op2.position then
      (op1, { op2 with position := op2.position + strLen op1.text })
    else (op1, op2)
  else if op1.type_ = "delete" ∧ op2.type_ = "insert" then
    if op1.position + op1.length > op2.position then
      (op1, { op2 with position := op1.position })
    else (op1, op2)
  else if op1.type_ = "delete" ∧ op2.type_ = "delete" then
    if op1.position + op1.length > op2.position then
      (op1, { op2 with length := if op2.length - op1.length < 0 then 0
                                 else op2.length - op1.length })
    else (op1, op2)
  else (op1, op2)

/-- Embeds `ot.Transform`: operations are first ordered by position (the Go
code swaps them when `op1.Position > op2.Position`), then the switch runs.
The Go error result is always `nil` and is omitted. -/
def transform (a b : Operation) : Operation × Operation :=
  if a.position > b.position then transformOrdered b a else transformOrdered a b

/-- The concrete operations of the Transform-correctness scenario:
opA = insert "XY" at position 2, opB = delete length 2 at position 4,
against content "abcdef". -/
def opA : Operation := ⟨"insert", 2, "XY", 0⟩

/-- opB of the Transform-correctness scenario. -/
def opB : Operation := ⟨"delete", 4, "", 2⟩

/-- The starting document "abcdef" of the Transform-correctness scenario. -/
def doc0 : OTDocument := ⟨"abcdef", []⟩

/-- Transformed opA: `Transform` leaves the lower-positioned insert unchanged. -/
def tA : Operation := (transform opA opB).1

/-- Transformed opB: the delete is shifted to position 6. -/
def tB : Operation := (transform opA opB).2

/-- Stated from the claim's words, for comparison with `transform`: the length
of the overlap between the two deleted ranges `[p1, p1+l1)` and `[p2, p2+l2)`. -/
def overlapLen (p1 l1 p2 l2 : Int) : Int :=
  max 0 (min (p1 + l1) (p2 + l2) - max p1 p2)

/-- C1 counterexample: with content "abcdef", opA = insert "XY" at 2 and
opB = delete length 2 at 4, the transformed pair is (insert "XY" at 2,
delete length 2 at 6).  Applying transformed opA then transformed opB
succeeds and yields "abXYcd", but applying the transformed opB first to
"abcdef" fails `Apply`'s range check (position 6 + length 2 exceeds the
length 6), so the two application orders of the claim do not both succeed. -/
theorem transform_concrete_second_order_fails :
    (seqApply doc0 [tA, tB]).1.content = "abXYcd" ∧
    (seqApply doc0 [tA, tB]).2 = none ∧
    (seqApply doc0 [tB, tA]).2 = some ApplyErr.invalidDelete := by decide

/-- C1 (amended): `Transform(opA, opB)` leaves opA unchanged and shifts opB to
position 6; applying transformed opA then transformed opB to "abcdef" yields
"abXYcd", which equals applying the original opB then the transformed opA —
the convergence pairing that holds, whereas applying both transformed
operations in the other order fails. -/
theorem transform_concrete_convergence :
    tA = opA ∧ tB = ⟨"delete", 6, "", 2⟩ ∧
    (seqApply doc0 [tA, tB]).1.content = "abXYcd" ∧
    (seqApply doc0 [tA, tB]).2 = none ∧
    (seqApply doc0 [opB, tA]).1.content = "abXYcd" ∧
    (seqApply doc0 [opB, tA]).2 = none := by decide

/-- C8 (amended): for two concurrent deletes ordered by position, whenever the
earlier delete's end extends past the later delete's start, `Transform`
reduces the later delete's length by the earlier delete's ENTIRE length,
floored at zero (not by the overlap of the two ranges); otherwise it is
unchanged, and the earlier delete is never modified. -/
theorem transform_delete_delete (o1 o2 : Operation)
    (h1 : o1.type_ = "delete") (h2 : o2.type_ = "delete")
    (h : o1.position ≤ o2.position) :
    transform o1 o2 =
      (o1, { o2 with length :=
               if o1.position + o1.length > o2.position then
                 (if o2.length - o1.length < 0 then 0 else o2.length - o1.length)
               else o2.length }) := by
  obtain ⟨t1, p1, x1, l1⟩ := o1
  obtain ⟨t2, p2, x2, l2⟩ := o2
  dsimp only at h1 h2 h ⊢
  subst h1; subst h2
  unfold transform
  rw [if_neg (not_lt.mpr h)]
  simp only [transformOrdered]
  have hne : ¬ ("delete" : String) = "insert" := by decide
  simp only [hne, false_and, if_false, and_self, if_true]
  by_cases hc : p2 < p1 + l1 <;> simp [hc]

/-- C8 witness: delete 3 at 0 against delete 5 at 2 — the later delete's
length drops from 5 to 2 (reduced by the earlier delete's full length 3). -/
theorem transform_delete_delete_witness :
    transform ⟨"delete", 0, "", 3⟩ ⟨"delete", 2, "", 5⟩ =
      (⟨"delete", 0, "", 3⟩, ⟨"delete", 2, "", 2⟩) := by
  have h := transform_delete_delete ⟨"delete", 0, "", 3⟩ ⟨"delete", 2, "", 5⟩ rfl rfl (by decide)
  rw [h]; decide

/-- C8 counterexample: for delete 3 at 0 and delete 5 at 2 the overlap of the
deleted ranges is 1, so the claim predicts the later length 5 - 1 = 4, but
`Transform` produces 5 - 3 = 2: the reduction is the earlier delete's whole
length, not the overlap. -/
theorem transform_delete_delete_not_overlap :
    overlapLen 0 3 2 5 = 1 ∧
    (transform ⟨"delete", 0, "", 3⟩ ⟨"delete", 2, "", 5⟩).2.length = 2 ∧
    ¬((transform ⟨"delete", 0, "", 3⟩ ⟨"delete", 2, "", 5⟩).2.length
        = 5 - overlapLen 0 3 2 5) := by decide

/-- C9 counterexample: `Apply` of a delete with negative length -1 at
position 2 on "abc" — the length is outside [0, 3], yet no range error is
returned; the content is spliced to "abbc" (byte 'b' duplicated), because the
check `position+length > len(content)` does not catch negative lengths. -/
theorem apply_negative_length_no_error :
    (-1 : Int) < 0 ∧
    applyOp ⟨"abc", []⟩ ⟨"delete", 2, "", -1⟩ =
      (⟨"abbc", [⟨"delete", 2, "", -1⟩]⟩, none) := by decide

/-- C9 (amended): `Apply` returns a range error for an insert exactly when its
position falls outside [0, len(content)], and for a delete exactly when
`position < 0` or `position+length > len(content)` — a negative length that
keeps `position+length` within range is NOT rejected; on an error return the
document is unchanged, and on success the splice is performed.  (The delete
clauses carry the side conditions `0 ≤ position+length` and
`position ≤ len(content)`; outside them the Go code passes its check but
panics on an out-of-range string slice rather than returning an error.) -/
theorem applyOp_spec (d : OTDocument) (op : Operation) :
    (op.type_ = "insert" →
      (((applyOp d op).2 ≠ none) ↔ (op.position < 0 ∨ op.position > strLen d.content))) ∧
    (op.type_ = "delete" → 0 ≤ op.position + op.length → op.position ≤ strLen d.content →
      (((applyOp d op).2 ≠ none) ↔ (op.position < 0 ∨ op.position + op.length > strLen d.content))) ∧
    ((applyOp d op).2 ≠ none → (applyOp d op).1 = d) ∧
    (op.type_ = "insert" → (applyOp d op).2 = none →
      (applyOp d op).1.content = spliceInsert d.content op.position.toNat op.text) ∧
    (op.type_ = "delete" → (applyOp d op).2 = none →
      (applyOp d op).1.content
        = spliceDelete d.content op.position.toNat (op.position + op.length).toNat) := by
  refine ⟨?_, ?_, ?_, ?_, ?_⟩
  · intro hins
    by_cases hc : op.position < 0 ∨ op.position > strLen d.content
    · simp [applyOp, hins, hc]
    · simp [applyOp, hins, hc]
  · intro hdel h1 h2
    have hins : ¬ op.type_ = "insert" := by simp [hdel]
    by_cases hc : op.position < 0 ∨ op.position + op.length > strLen d.content
    · simp [applyOp, hins, hdel, hc]
    · have hp : ¬(strLen d.content < op.position ∨ op.position + op.length < 0) := by omega
      simp [applyOp, hins, hdel, hc, hp]
  · by_cases hins : op.type_ = "insert"
    · by_cases hc : op.position < 0 ∨ op.position > strLen d.content
      · simp [applyOp, hins, hc]
      · simp [applyOp, hins, hc]
    · by_cases hdel : op.type_ = "delete"
      · by_cases hc : op.position < 0 ∨ op.position + op.length > strLen d.content
        · simp [applyOp, hins, hdel, hc]
        · by_cases hp : strLen d.content < op.position ∨ op.position + op.length < 0
          · simp [applyOp, hins, hdel, hc, hp]
          · simp [applyOp, hins, hdel, hc, hp]
      · simp [applyOp, hins, hdel]
  · intro hins hok
    by_cases hc : op.position < 0 ∨ op.position > strLen d.content
    · simp [applyOp, hins, hc] at hok
    · simp [applyOp, hins, hc]
  · intro hdel hok
    have hins : ¬ op.type_ = "insert" := by simp [hdel]
    by_cases hc : op.position < 0 ∨ op.position + op.length > strLen d.content
    · simp [applyOp, hins, hdel, hc] at hok
    · by_cases hp : strLen d.content < op.position ∨ op.position + op.length < 0
      · simp [applyOp, hins, hdel, hc, hp] at hok
      · simp [applyOp, hins, hdel, hc, hp]

/-- C9 witness: an insert at position 5 on "abc" is out of range — `Apply`
reports an error and the document is unchanged. -/
theorem applyOp_spec_witness :
    ((applyOp ⟨"abc", []⟩ ⟨"insert", 5, "X", 0⟩).2 ≠ none) ∧
    (applyOp ⟨"abc", []⟩ ⟨"insert", 5, "X", 0⟩).1 = ⟨"abc", []⟩ := by
  have h := applyOp_spec ⟨"abc", []⟩ ⟨"insert", 5, "X", 0⟩
  have he : (applyOp ⟨"abc", []⟩ ⟨"insert", 5, "X", 0⟩).2 ≠ none :=
    (h.1 rfl).mpr (by decide)
  exact ⟨he, h.2.2.1 he⟩

end GoPad.OT

namespace GoPad.Storage

/-- Embeds `storage.Tab`: id, display name, content, markdown notes. -/
structure Tab where
  id : String
  name : String
  content : String
  notes : String
deriving DecidableEq

/-- Embeds `storage.DocumentState`: the persisted snapshot of a document.
The `Users` map (uuid to name) is an association list; serialization is
modelled as the identity (Go's JSON marshal/unmarshal round-trips every
field of this struct). -/
structure DocumentState where
  content : String
  language : String
  lastModified : Int
  users : List (String × String)
  version : Int
  tabs : List Tab
  activeTabId : String
deriving DecidableEq

/-- The Redis hash at key `doc:<docID>`, restricted to the two fields the
storage code touches: `data` (the serialized snapshot, written by
`SaveDocument`) and `version` (read by `SaveDocument`, never written by any
code in the repository).  The TTL refresh and the pipelined publish are not
modelled; no claim depends on them. -/
structure RedisDocKey where
  dataField : Option DocumentState
  versionField : Option Int
deriving DecidableEq

/-- Embeds `Storage.SaveDocument`: reads hash field `version` (a missing
field is `redis.Nil`, leaving `currentVersion` at its zero value 0), sets
`state.Version = currentVersion + 1` and `state.LastModified = now`, and
writes the marshalled state under hash field `data`.  Returns the store
after the pipeline together with the (mutated) state that was written. -/
def saveDocument (store : RedisDocKey) (state : DocumentState) (now : Int) :
    RedisDocKey × DocumentState :=
  let currentVersion := store.versionField.getD 0
  let st := { state with version := currentVersion + 1, lastModified := now }
  ({ store with dataField := some st }, st)

/-- Embeds `Storage.LoadDocument`: returns the stored snapshot, or, when the
`data` field is absent (`redis.Nil`), the default `DocumentState` literal of
the Go code — content "", language "plaintext", lastModified 0, empty users,
version 0, and the zero values for the remaining fields: a nil tabs slice
and an empty activeTabId. -/
def loadDocument (store : RedisDocKey) : DocumentState :=
  match store.dataField with
  | some st => st
  | none =>
    { content := "", language := "plaintext", lastModified := 0,
      users := [], version := 0, tabs := [], activeTabId := "" }

/-- The documented invariant on a document: the tabs list is non-empty and
`activeTabId` names one of the tabs. -/
def tabsInvariant (d : DocumentState) : Prop :=
  d.tabs ≠ [] ∧ d.activeTabId ∈ d.tabs.map Tab.id

instance (d : DocumentState) : Decidable (tabsInvariant d) := by
  unfold tabsInvariant; infer_instance

/-- C2: the version counter never advances past 1.  `SaveDocument` reads hash
field `version`, but the pipeline only ever writes field `data`, so the read
always yields `redis.Nil` and every save stores version 0 + 1 = 1: after a
second save of the same document the stored version is still 1, not the
previously stored version plus 1.  (Tabs, language and activeTabId do
round-trip, and lastModified advances.) -/
theorem saveDocument_version_stuck_at_one :
    (loadDocument (saveDocument ⟨none, none⟩
        ⟨"c", "go", 0, [], 0, [⟨"t1", "Tab 1", "x", ""⟩], "t1"⟩ 100).1).version = 1 ∧
    (loadDocument (saveDocument (saveDocument ⟨none, none⟩
        ⟨"c", "go", 0, [], 0, [⟨"t1", "Tab 1", "x", ""⟩], "t1"⟩ 100).1
        ⟨"c", "go", 0, [], 0, [⟨"t1", "Tab 1", "x", ""⟩], "t1"⟩ 200).1).version = 1 ∧
    ¬((loadDocument (saveDocument (saveDocument ⟨none, none⟩
        ⟨"c", "go", 0, [], 0, [⟨"t1", "Tab 1", "x", ""⟩], "t1"⟩ 100).1
        ⟨"c", "go", 0, [], 0, [⟨"t1", "Tab 1", "x", ""⟩], "t1"⟩ 200).1).version
      = (loadDocument (saveDocument ⟨none, none⟩
        ⟨"c", "go", 0, [], 0, [⟨"t1", "Tab 1", "x", ""⟩], "t1"⟩ 100).1).version + 1) := by
  decide

/-- C2 context: the parts of the round-trip that do hold — tabs, language and
activeTabId of the loaded document equal what was saved, and lastModified is
stamped with the save time. -/
theorem saveDocument_roundtrip_fields (store : RedisDocKey)
    (state : DocumentState) (now : Int) :
    (loadDocument (saveDocument store state now).1).tabs = state.tabs ∧
    (loadDocument (saveDocument store state now).1).language = state.language ∧
    (loadDocument (saveDocument store state now).1).activeTabId = state.activeTabId ∧
    (loadDocument (saveDocument store state now).1).lastModified = now := by
  simp [saveDocument, loadDocument]

/-- C2 context witness: the round-trip fields at a concrete saved state. -/
theorem saveDocument_roundtrip_fields_witness :
    (loadDocument (saveDocument ⟨none, none⟩
        ⟨"c", "go", 0, [], 0, [⟨"t1", "Tab 1", "x", ""⟩], "t1"⟩ 100).1).tabs
      = [⟨"t1", "Tab 1", "x", ""⟩] :=
  (saveDocument_roundtrip_fields ⟨none, none⟩
    ⟨"c", "go", 0, [], 0, [⟨"t1", "Tab 1", "x", ""⟩], "t1"⟩ 100).1

/-- C4 counterexample: the default document `LoadDocument` returns when no
snapshot is stored has a nil tabs list and an empty activeTabId, so the
tabs invariant fails for it — nothing in the storage code synthesizes a
default tab. -/
theorem loadDocument_default_violates_invariant :
    ¬ tabsInvariant (loadDocument ⟨none, none⟩) := by decide

/-- C4 (amended): `LoadDocument` returns the stored snapshot exactly as saved
and enforces nothing — the tabs invariant holds for the loaded document iff
it held for the stored snapshot — and when no snapshot is stored the default
document has an empty tabs list and an empty activeTabId, violating the
invariant. -/
theorem loadDocument_no_invariant (store : RedisDocKey) :
    (∀ st, store.dataField = some st →
      loadDocument store = st ∧ (tabsInvariant (loadDocument store) ↔ tabsInvariant st)) ∧
    (store.dataField = none →
      (loadDocument store).tabs = [] ∧ (loadDocument store).activeTabId = "") := by
  constructor
  · intro st hst
    simp [loadDocument, hst]
  · intro hst
    simp [loadDocument, hst]

/-- C4 witness: applying the amended statement to the empty store. -/
theorem loadDocument_no_invariant_witness :
    (loadDocument ⟨none, none⟩).tabs = [] ∧ (loadDocument ⟨none, none⟩).activeTabId = "" :=
  (loadDocument_no_invariant ⟨none, none⟩).2 rfl

end GoPad.Storage

namespace GoPad.Server

/-!
Model of `cmd/server/main.go` (the variant with peer-state recovery).

Client objects (`*Client`) are modelled as `SrvClient` records identified by
a numeric `cid` (object identity: a reconnect always allocates a fresh
object, hence a fresh `cid`), held in a store that is updated in place.
Go maps are association lists; `doc.clients` (a `map[*Client]bool`) is the
list of registered cids.  Handlers are pure transitions on `ServerState`
that also return the trace of messages written to client sockets, in
program order; the hub's `register` event is processed immediately after
`handleWebSocket` queues it, matching the single serialized event loop.
Times are in milliseconds (`time.Now().UnixMilli`); the 2-minute grace
window is 120000 ms.  `broadcastUserList` messages carry no state and are
not modelled; neither is eviction of clients with a full send buffer.
-/

/-- Embeds the package-level `colorPalette` of nine colors. -/
def colorPalette : List String :=
  ["#e57373", "#64b5f6", "#81c784", "#ffd54f", "#ba68c8",
   "#4db6ac", "#ffb74d", "#a1887f", "#90a4ae"]

/-- Go map read `m[k]` returning presence, on an association list. -/
def alGet {α : Type} (m : List (String × α)) (k : String) : Option α :=
  match m with
  | [] => none
  | (k', v) :: rest => if k' = k then some v else alGet rest k

/-- Go map write `m[k] = v` on an association list (replaces the entry). -/
def alSet {α : Type} (m : List (String × α)) (k : String) (v : α) : List (String × α) :=
  match m with
  | [] => [(k, v)]
  | (k', v') :: rest => if k' = k then (k, v) :: rest else (k', v') :: alSet rest k v

/-- Go map `delete(m, k)` on an association list (map keys are unique, so
removing every binding of `k` is the same operation). -/
def alDel {α : Type} (m : List (String × α)) (k : String) : List (String × α) :=
  match m with
  | [] => []
  | (k', v) :: rest => if k' = k then alDel rest k else (k', v) :: alDel rest k

/-- Embeds `main.Client`: the per-socket object with its presence fields.
`cid` stands for the object's address (pointer identity). -/
structure SrvClient where
  cid : Nat
  uuid : String
  name : String
  color : String
  disconnected : Bool
  disconnectedAt : Int
deriving DecidableEq

/-- Embeds `main.Document`: content, language, the `Users` presence map
(uuid to client object), the registered-clients set, `lastModified`, and
the peer-recovery wait list. -/
structure SrvDoc where
  content : String
  language : String
  users : List (String × Nat)
  clients : List Nat
  lastModified : Int
  waitingForState : List Nat
deriving DecidableEq

/-- The whole modelled server state for one document: the store of client
objects, the document, and the global `colorIndex` counter. -/
structure ServerState where
  objs : List SrvClient
  doc : SrvDoc
  colorIdx : Nat
deriving DecidableEq

/-- The envelopes the server writes to client sockets, as far as the claims
need them.  `initSnap` is the `init` envelope built from the hub's own
snapshot (content, language, user keys, lastModified); `initPeer` is a
peer's `fullState` payload re-tagged as `init`; `updateMsg` is the re-marshalled
tabId/content update of the tabbed variant, `updateFull` the whole-content
update of the first variant. -/
inductive WireMsg where
  | initSnap (content language : String) (userKeys : List String) (lastModified : Int)
  | initPeer (payload : String)
  | requestState
  | updateMsg (tabId content : String)
  | updateFull (content : String)
deriving DecidableEq

/-- Fetches a client object by identity from the object store. -/
def getObj (objs : List SrvClient) (cid : Nat) : Option SrvClient :=
  match objs with
  | [] => none
  | c :: rest => if c.cid = cid then some c else getObj rest cid

/-- Writes a client object back to the object store (in-place mutation of
the Go object the pointer refers to). -/
def setObj (objs : List SrvClient) (c : SrvClient) : List SrvClient :=
  match objs with
  | [] => [c]
  | c' :: rest => if c'.cid = c.cid then c :: rest else c' :: setObj rest c

/-- The `init` envelope holding a document's current snapshot, as built both
by `handleWebSocket` and by the hub's `register` case. -/
def snapshotMsg (d : SrvDoc) : WireMsg :=
  .initSnap d.content d.language (d.users.map Prod.fst) d.lastModified

/-- Embeds `handleWebSocket` followed by the hub's processing of the
`register` event for the new client.  If the document has no state
(`Content == "" && len(Users) == 0`) and already has registered clients,
the new client is queued on `waitingForState` and a `requestState` envelope
is sent to every registered client; otherwise the handler writes the `init`
snapshot directly.  In both branches the `register` event then adds the
client to the fan-out set and writes the `init` snapshot to its socket. -/
def connect (st : ServerState) (newCid : Nat) : ServerState × List (Nat × WireMsg) :=
  let client : SrvClient :=
    { cid := newCid, uuid := "", name := "", color := "",
      disconnected := false, disconnectedAt := 0 }
  let d := st.doc
  if (d.content = "" ∧ d.users = []) ∧ d.clients ≠ [] then
    let d1 := { d with waitingForState := d.waitingForState ++ [newCid] }
    let reqMsgs := d1.clients.map (fun c => (c, WireMsg.requestState))
    let d2 := { d1 with clients := d1.clients ++ [newCid] }
    ({ st with objs := setObj st.objs client, doc := d2 },
     reqMsgs ++ [(newCid, snapshotMsg d2)])
  else
    let d2 := { d with clients := d.clients ++ [newCid] }
    ({ st with objs := setObj st.objs client, doc := d2 },
     [(newCid, snapshotMsg d), (newCid, snapshotMsg d2)])

/-- Embeds `readPump`'s `case "fullState"`: takes the wait list, clears it,
and if it was non-empty forwards the payload re-tagged as `init` to every
waiting client's socket. -/
def handleFullState (st : ServerState) (payload : String) :
    ServerState × List (Nat × WireMsg) :=
  let waiting := st.doc.waitingForState
  let st1 := { st with doc := { st.doc with waitingForState := [] } }
  if waiting = [] then (st1, [])
  else (st1, waiting.map (fun w => (w, WireMsg.initPeer payload)))

/-- Embeds `readPump`'s `case "update"` of the tabbed variant together with
the hub's broadcast of the queued message: the envelope's tabId and content
are re-marshalled and sent to every registered client except the sender
(the broadcast loop skips the sender for `update` messages).  The document
state is not touched. -/
def handleUpdate (st : ServerState) (sender : Nat) (tabId content : String) :
    ServerState × List (Nat × WireMsg) :=
  (st, (st.doc.clients.filter (fun c => !(c == sender))).map
         (fun c => (c, WireMsg.updateMsg tabId content)))

/-- Embeds `readPump`'s `case "update"` of the first (tab-less) variant plus
the broadcast: sets `doc.Content` and `doc.lastModified`, then fans the
content out to every registered client except the sender. -/
def handleUpdateV1 (st : ServerState) (sender : Nat) (content : String) (now : Int) :
    ServerState × List (Nat × WireMsg) :=
  let d := { st.doc with content := content, lastModified := now }
  ({ st with doc := d },
   (d.clients.filter (fun c => !(c == sender))).map
     (fun c => (c, WireMsg.updateFull content)))

/-- Embeds `readPump`'s `case "setName"`: binds the uuid, inherits the old
entry's color when a different, disconnected client object held the uuid
(also evicting that object from the fan-out set), assigns
`colorPalette[colorIndex % len(colorPalette)]` and increments the global
counter when the client still has no color, clears the disconnected flags,
and installs this object in `doc.Users[uuid]`. -/
def handleSetName (st : ServerState) (cid : Nat) (uuid name : String) : ServerState :=
  match getObj st.objs cid with
  | none => st
  | some c0 =>
    let c1 := { c0 with uuid := uuid }
    let old? := alGet st.doc.users uuid
    let c2 :=
      match old? with
      | some oldCid =>
        if oldCid ≠ cid then
          match getObj st.objs oldCid with
          | some oldC => if oldC.disconnected then { c1 with color := oldC.color } else c1
          | none => c1
        else c1
      | none => c1
    let clients1 :=
      match old? with
      | some oldCid =>
        if oldCid ≠ cid then st.doc.clients.filter (fun x => !(x == oldCid))
        else st.doc.clients
      | none => st.doc.clients
    let c3 := { c2 with name := name }
    let (c4, idx') :=
      if c3.color = "" then
        ({ c3 with color := colorPalette.getD (st.colorIdx % colorPalette.length) "" },
         st.colorIdx + 1)
      else (c3, st.colorIdx)
    let c5 := { c4 with disconnected := false, disconnectedAt := 0 }
    { objs := setObj st.objs c5,
      doc := { st.doc with users := alSet st.doc.users uuid cid, clients := clients1 },
      colorIdx := idx' }

/-- Embeds the socket-close bookkeeping in `readPump`'s deferred function
(and the hub's `unregister` case, which repeats it): a client with a bound
uuid is marked disconnected and timestamped.  The registered-clients set is
not touched, and the entry stays in `doc.Users`. -/
def handleClose (st : ServerState) (cid : Nat) (now : Int) : ServerState :=
  match getObj st.objs cid with
  | none => st
  | some c =>
    if c.uuid ≠ "" then
      { st with objs := setObj st.objs { c with disconnected := true, disconnectedAt := now } }
    else st

/-- Embeds the delayed removal goroutine scheduled on socket close: after the
sleep it checks the CLOSED CLIENT OBJECT's own flags —
`client.disconnected && time.Since(client.disconnectedAt) >= 2*time.Minute`
— and on success deletes `doc.Users[client.uuid]`, whatever object that key
currently holds. -/
def cleanupFire (st : ServerState) (cid : Nat) (now : Int) : ServerState :=
  match getObj st.objs cid with
  | none => st
  | some c =>
    if c.disconnected ∧ now - c.disconnectedAt ≥ 120000 then
      { st with doc := { st.doc with users := alDel st.doc.users c.uuid } }
    else st

/-- The sub-trace of messages written to one client's socket. -/
def msgsTo (cid : Nat) (trace : List (Nat × WireMsg)) : List WireMsg :=
  (trace.filter (fun m => m.1 == cid)).map Prod.snd

/-- The colors currently held by active (non-disconnected) users of the
document, read off the presence map — the eligibility notion of the
color-allocation claim. -/
def activeColors (st : ServerState) : List String :=
  st.doc.users.filterMap (fun p =>
    match getObj st.objs p.2 with
    | some c => if c.disconnected then none else some c.color
    | none => none)

/-- A freshly created document hub (`getOrCreateDocument`) with no clients,
at lastModified 0. -/
def emptyState : ServerState :=
  { objs := [],
    doc := { content := "", language := "plaintext", users := [], clients := [],
             lastModified := 0, waitingForState := [] },
    colorIdx := 0 }

/-- Reconnect scenario, step 1: client object 1 connects. -/
def reconS1 : ServerState := (connect emptyState 1).1

/-- Step 2: client 1 binds uuid "u" and is assigned a color. -/
def reconS2 : ServerState := handleSetName reconS1 1 "u" "alice"

/-- Step 3: client 1's socket closes at time 0; the delayed removal is now
scheduled for time 120000. -/
def reconS3 : ServerState := handleClose reconS2 1 0

/-- Step 4: a new socket (object 2) connects within the grace window. -/
def reconS4 : ServerState := (connect reconS3 2).1

/-- Step 5: the new socket re-binds uuid "u", inheriting the color and
replacing the entry object in `doc.Users`. -/
def reconS5 : ServerState := handleSetName reconS4 2 "u" "alice"

/-- Step 6: client 1's delayed removal fires at time 120000. -/
def reconS6 : ServerState := cleanupFire reconS5 1 120000

/-- Color scenario: nine clients bind nine distinct uuids, consuming the
whole palette and driving the global counter to 9. -/
def c5joins : List (Nat × String) :=
  [(1, "u1"), (2, "u2"), (3, "u3"), (4, "u4"), (5, "u5"),
   (6, "u6"), (7, "u7"), (8, "u8"), (9, "u9")]

/-- The state after the nine joins. -/
def c5afterJoins : ServerState :=
  c5joins.foldl (fun s p => handleSetName ((connect s p.1).1) p.1 p.2 "n") emptyState

/-- Clients 3..9 close their sockets at time 0. -/
def c5afterCloses : ServerState :=
  (List.range 7).foldl (fun s i => handleClose s (i + 3) 0) c5afterJoins

/-- The grace window elapses with no reconnect: clients 3..9 are evicted
from the presence map, releasing their colors; only u1 and u2 stay active. -/
def c5afterCleanup : ServerState :=
  (List.range 7).foldl (fun s i => cleanupFire s (i + 3) 120000) c5afterCloses

/-- A tenth client connects. -/
def c5preAssign : ServerState := (connect c5afterCleanup 10).1

/-- The tenth client binds a fresh uuid and is assigned a color. -/
def c5final : ServerState := handleSetName c5preAssign 10 "u10" "n"

/-- A document holding content "old" with two registered clients, client 1
having presence — the starting point of the update counterexample. -/
def updSt : ServerState :=
  { objs := [⟨1, "u1", "alice", "#e57373", false, 0⟩, ⟨2, "", "", "", false, 0⟩],
    doc := { content := "old", language := "plaintext", users := [("u1", 1)],
             clients := [1, 2], lastModified := 5, waitingForState := [] },
    colorIdx := 1 }

/-- A state whose only client object is disconnected since time 0 while its
uuid is still mapped — input for the cleanup witness. -/
def wSt6 : ServerState :=
  { objs := [⟨1, "u", "n", "#e57373", true, 0⟩],
    doc := { content := "", language := "plaintext", users := [("u", 1)], clients := [1],
             lastModified := 0, waitingForState := [] },
    colorIdx := 1 }

/-- A document with empty state but one live registered socket — the
cold-start-with-live-peers situation. -/
def wSt7b : ServerState :=
  { objs := [⟨1, "", "", "", false, 0⟩],
    doc := { content := "", language := "plaintext", users := [], clients := [1],
             lastModified := 0, waitingForState := [] },
    colorIdx := 0 }

/-- A document with non-empty content and no clients — a non-recovery
connection target. -/
def wSt10 : ServerState :=
  { objs := [],
    doc := { content := "x", language := "plaintext", users := [], clients := [],
             lastModified := 0, waitingForState := [] },
    colorIdx := 0 }

/-- `getObj` only returns an object stored under its own identity. -/
theorem getObj_cid_eq {objs : List SrvClient} {cid : Nat} {c : SrvClient}
    (h : getObj objs cid = some c) : c.cid = cid := by
  induction objs with
  | nil => simp [getObj] at h
  | cons c' rest ih =>
    by_cases hc : c'.cid = cid
    · simp [getObj, hc] at h
      subst h; exact hc
    · simp [getObj, hc] at h
      exact ih h

/-- Reading back an object just written to the store yields that object. -/
theorem getObj_setObj (objs : List SrvClient) (c : SrvClient) :
    getObj (setObj objs c) c.cid = some c := by
  induction objs with
  | nil => simp [setObj, getObj]
  | cons c' rest ih =>
    by_cases hc : c'.cid = c.cid
    · simp [setObj, getObj, hc]
    · simp [setObj, getObj, hc, ih]

/-- `getObj_setObj`, stated through an equation on the identity. -/
theorem getObj_setObj_of (objs : List SrvClient) (c : SrvClient) (cid : Nat)
    (h : c.cid = cid) : getObj (setObj objs c) cid = some c := by
  subst h; exact getObj_setObj objs c

/-- A key is gone after `delete` on the association-list map. -/
theorem alGet_alDel {α : Type} (m : List (String × α)) (k : String) :
    alGet (alDel m k) k = none := by
  induction m with
  | nil => rfl
  | cons p rest ih =>
    obtain ⟨k', v⟩ := p
    by_cases hk : k' = k
    · simp [alDel, hk, ih]
    · simp [alDel, alGet, hk, ih]

/-- C6 counterexample: client 1 (uuid "u") closes at time 0; a new socket
(object 2) reconnects under the same uuid within the grace window, becoming
the active entry with the inherited color; when client 1's delayed removal
fires at 120000 ms it still sees its own object marked disconnected for the
full window and deletes `Users["u"]` — removing the new, ACTIVE entry. -/
theorem cleanup_deletes_reconnected_entry :
    alGet reconS5.doc.users "u" = some 2 ∧
    (getObj reconS5.objs 2).map SrvClient.disconnected = some false ∧
    (getObj reconS5.objs 2).map SrvClient.color = some "#e57373" ∧
    alGet reconS6.doc.users "u" = none := by decide

/-- C6 (amended): the delayed removal decides by the closed client object's
OWN flags only — if that object is still marked disconnected and the window
has elapsed, the uuid's entry is removed from the user map no matter what
object the map currently holds (a reconnect does not protect the new
entry); if the object was reconnected in place (flag cleared), nothing
happens. -/
theorem cleanup_check_ignores_map_entry (st : ServerState) (cid : Nat) (now : Int)
    (c : SrvClient) (hobj : getObj st.objs cid = some c) :
    (c.disconnected = true → now - c.disconnectedAt ≥ 120000 →
      alGet (cleanupFire st cid now).doc.users c.uuid = none) ∧
    (c.disconnected = false → cleanupFire st cid now = st) := by
  constructor
  · intro hd ht
    unfold cleanupFire
    rw [hobj]
    simp [hd, ht, alGet_alDel]
  · intro hd
    unfold cleanupFire
    rw [hobj]
    simp [hd]

/-- C6 witness: firing the delayed removal on a disconnected client removes
its uuid from the user map. -/
theorem cleanup_check_ignores_map_entry_witness :
    alGet (cleanupFire wSt6 1 120000).doc.users "u" = none := by
  have h := cleanup_check_ignores_map_entry wSt6 1 120000
    ⟨1, "u", "n", "#e57373", true, 0⟩ (by decide)
  exact h.1 rfl (by decide)

/-- C5 (amended): when `setName` runs for a client with no color and a uuid
not present in the user map, the assigned color is
`colorPalette[colorIndex % len(colorPalette)]` and the global counter is
incremented — the choice depends only on the global counter, not on which
colors are held by active users of the document. -/
theorem setName_color_round_robin (st : ServerState) (cid : Nat) (uuid name : String)
    (c : SrvClient) (hobj : getObj st.objs cid = some c) (hcol : c.color = "")
    (hfresh : alGet st.doc.users uuid = none) :
    getObj (handleSetName st cid uuid name).objs cid
      = some { c with
          uuid := uuid, name := name,
          color := colorPalette.getD (st.colorIdx % colorPalette.length) "",
          disconnected := false, disconnectedAt := 0 } ∧
    (handleSetName st cid uuid name).colorIdx = st.colorIdx + 1 := by
  have hcid : c.cid = cid := getObj_cid_eq hobj
  unfold handleSetName
  rw [hobj]
  simp only [hfresh, hcol, if_true]
  constructor
  · exact getObj_setObj_of st.objs _ cid hcid
  · trivial

/-- C5 witness: the first client of a fresh hub gets `colorPalette[0]` and
the counter moves to 1. -/
theorem setName_color_round_robin_witness :
    getObj (handleSetName (connect emptyState 1).1 1 "u" "n").objs 1
      = some { cid := 1, uuid := "u", name := "n",
               color := colorPalette.getD ((connect emptyState 1).1.colorIdx % colorPalette.length) "",
               disconnected := false, disconnectedAt := 0 } ∧
    (handleSetName (connect emptyState 1).1 1 "u" "n").colorIdx
      = (connect emptyState 1).1.colorIdx + 1 := by
  exact setName_color_round_robin (connect emptyState 1).1 1 "u" "n"
    ⟨1, "", "", "", false, 0⟩ (by decide) rfl (by decide)

/-- C5 counterexample: after nine assignments (counter at 9), seven users are
evicted; only u1 ("#e57373") and u2 ("#64b5f6") remain active.  The next
client to need a color receives `colorPalette[9 % 9]` = "#e57373" — a color
already held by an active user — even though palette colors such as
"#81c784" are held by no active user, contradicting "a color already in use
is reused only when all palette colors are taken". -/
theorem color_assignment_ignores_active_set :
    (getObj c5final.objs 10).map SrvClient.color = some "#e57373" ∧
    "#e57373" ∈ activeColors c5preAssign ∧
    "#e57373" ∈ colorPalette ∧
    "#81c784" ∈ colorPalette ∧
    ¬ "#81c784" ∈ activeColors c5preAssign := by decide

/-- C3 (amended): processing an `update` envelope with tabId and content
leaves the server state completely unchanged and only fans the re-marshalled
envelope out to the registered sockets other than the sender, so a client
connecting afterwards interacts with the same state as before the update;
in the first (tab-less) variant the update instead replaces the whole
document content and stamps lastModified. -/
theorem handleUpdate_fanout_only (st : ServerState) (sender newCid : Nat)
    (tabId content : String) (now : Int) :
    (handleUpdate st sender tabId content).1 = st ∧
    (handleUpdate st sender tabId content).2
      = (st.doc.clients.filter (fun c => !(c == sender))).map
          (fun c => (c, WireMsg.updateMsg tabId content)) ∧
    connect (handleUpdate st sender tabId content).1 newCid = connect st newCid ∧
    (handleUpdateV1 st sender content now).1.doc.content = content ∧
    (handleUpdateV1 st sender content now).1.doc.lastModified = now :=
  ⟨rfl, rfl, rfl, rfl, rfl⟩

/-- C3 counterexample: on a document holding "old", an `update` for tab "t1"
with content "new" from client 1 is fanned out to client 2 but changes
nothing in the hub's state, and a client joining afterwards receives init
snapshots still carrying "old", not "new". -/
theorem update_does_not_change_state :
    (handleUpdate updSt 1 "t1" "new").1 = updSt ∧
    (handleUpdate updSt 1 "t1" "new").2 = [(2, .updateMsg "t1" "new")] ∧
    msgsTo 3 (connect (handleUpdate updSt 1 "t1" "new").1 3).2
      = [.initSnap "old" "plaintext" ["u1"] 5, .initSnap "old" "plaintext" ["u1"] 5] := by
  decide

/-- C10: a client accepted on the non-recovery path has the full init
snapshot envelope written to its socket exactly twice — once directly by
`handleWebSocket` and once more when the hub processes its `register`
event — and the two envelopes are identical. -/
theorem nonrecovery_double_init (st : ServerState) (newCid : Nat)
    (h : ¬((st.doc.content = "" ∧ st.doc.users = []) ∧ st.doc.clients ≠ [])) :
    msgsTo newCid (connect st newCid).2 = [snapshotMsg st.doc, snapshotMsg st.doc] := by
  unfold connect
  rw [if_neg h]
  simp [msgsTo, snapshotMsg]

/-- C10 witness: connecting to a document with content "x" yields the double
init. -/
theorem nonrecovery_double_init_witness :
    msgsTo 1 (connect wSt10 1).2 = [snapshotMsg wSt10.doc, snapshotMsg wSt10.doc] :=
  nonrecovery_double_init wSt10 1 (by decide)

/-- C7 (amended): on the recovery path the server sends `requestState` to
every registered socket and the new connection's registration writes it an
`init` envelope carrying the EMPTY local snapshot; when a peer then answers
with `fullState`, the new connection additionally receives the peer-supplied
state re-tagged as an `init` envelope — the peer state arrives, but in
addition to (not instead of) the empty default snapshot. -/
theorem peer_recovery_delivers_state (st : ServerState) (newCid : Nat) (payload : String)
    (hContent : st.doc.content = "") (hUsers : st.doc.users = [])
    (hClients : st.doc.clients ≠ []) (hWait : st.doc.waitingForState = []) :
    (connect st newCid).2
      = st.doc.clients.map (fun c => (c, WireMsg.requestState))
        ++ [(newCid, WireMsg.initSnap "" st.doc.language [] st.doc.lastModified)] ∧
    msgsTo newCid (handleFullState (connect st newCid).1 payload).2
      = [WireMsg.initPeer payload] := by
  unfold connect
  rw [if_pos ⟨⟨hContent, hUsers⟩, hClients⟩]
  constructor
  · simp [snapshotMsg, hContent, hUsers]
  · unfold handleFullState
    simp [hWait, msgsTo]

/-- C7 witness: the recovery flow at the concrete cold-start state. -/
theorem peer_recovery_delivers_state_witness :
    (connect wSt7b 2).2
      = wSt7b.doc.clients.map (fun c => (c, WireMsg.requestState))
        ++ [(2, WireMsg.initSnap "" wSt7b.doc.language [] wSt7b.doc.lastModified)] ∧
    msgsTo 2 (handleFullState (connect wSt7b 2).1 "S").2 = [WireMsg.initPeer "S"] :=
  peer_recovery_delivers_state wSt7b 2 "S" rfl rfl (by decide) rfl

/-- C7 counterexample: in the cold-start-with-live-peers scenario the new
connection's socket receives an `init` envelope with the empty default
snapshot (from its registration) before the peer-supplied init — it does
not receive the peer state INSTEAD of an empty default. -/
theorem recovery_client_receives_empty_init :
    msgsTo 2 ((connect wSt7b 2).2 ++ (handleFullState (connect wSt7b 2).1 "S").2)
      = [WireMsg.initSnap "" "plaintext" [] 0, WireMsg.initPeer "S"] := by decide

end GoPad.Server
